import Mathlib

/-!
Shallow embedding of the resilient WooCommerce catalog API client
(src/services/woocommerce.api.js) of the fence-calculator-react-ui
repository, together with theorems settling the specification claims.

Modelling conventions:
* JavaScript strings are Lean `String`s; JS `undefined`/`null` parameter
  values are both `Option.none` (the client treats them identically).
* A JS number that may be `NaN` (the result of `parseInt`) is `Option Int`
  with `none` standing for `NaN`.
* `new Date().toISOString()` is modelled by an explicit `now : String`
  argument threaded into the generators: each generator call reads the
  ambient clock, so the clock reading is an input of the embedded function.
* The network is an oracle `Net`: given the attempt number, the built URL,
  the HTTP method and the optional serialized body, it returns the raw
  transport event observed for that attempt.  Request bodies are kept as
  their serialized (`JSON.stringify`) form, opaque to the client.
-/

/-- One category record, as produced by `generateMockCategories`. -/
structure Category where
  id : Nat
  name : String
  slug : String
  count : Nat
deriving DecidableEq

/-- An embedded category reference `{id, name, slug}` inside a product. -/
structure CatRef where
  id : Nat
  name : String
  slug : String
deriving DecidableEq

/-- A product attribute record `{id, name, position, visible, variation, options}`. -/
structure ProductAttribute where
  id : Nat
  name : String
  position : Nat
  visible : Bool
  variation : Bool
  options : List String
deriving DecidableEq

/-- A product image record.  The hand-curated override images of products
101 and 104 omit the date fields, hence the `Option`s; `id` is `Option Int`
because the template computes `1000 + productId` which is `NaN` when the
parsed product id was `NaN`. -/
structure ProductImage where
  id : Option Int
  date_created : Option String
  date_modified : Option String
  src : String
  name : String
  alt : String
deriving DecidableEq

/-- The `dimensions` sub-object of a product. -/
structure Dimensions where
  length : String
  width : String
  height : String
deriving DecidableEq

/-- One `href` entry of the `_links` object. -/
structure LinkRef where
  href : String
deriving DecidableEq

/-- The `_links` object of a product. -/
structure ProductLinks where
  self : List LinkRef
  collection : List LinkRef
deriving DecidableEq

/-- A product record, field for field after the template object built in
`generateMockProduct` (src/services/woocommerce.api.js lines 272-356).
`id` is `Option Int` (`none` = `NaN`).  The `fallback` key is only present
(and `true`) on the default mock product; its absence on the other products
is modelled as `false`. -/
structure Product where
  id : Option Int
  name : String
  slug : String
  permalink : String
  date_created : String
  date_modified : String
  type : String
  status : String
  featured : Bool
  catalog_visibility : String
  description : String
  short_description : String
  sku : String
  price : String
  regular_price : String
  sale_price : String
  on_sale : Bool
  purchasable : Bool
  total_sales : Nat
  virtual : Bool
  downloadable : Bool
  downloads : List String
  download_limit : Int
  download_expiry : Int
  external_url : String
  button_text : String
  tax_status : String
  tax_class : String
  manage_stock : Bool
  stock_quantity : Option Nat
  stock_status : String
  backorders : String
  backorders_allowed : Bool
  backordered : Bool
  sold_individually : Bool
  weight : String
  dimensions : Dimensions
  shipping_required : Bool
  shipping_taxable : Bool
  shipping_class : String
  shipping_class_id : Nat
  reviews_allowed : Bool
  average_rating : String
  rating_count : Nat
  related_ids : List Nat
  upsell_ids : List Nat
  cross_sell_ids : List Nat
  parent_id : Nat
  purchase_note : String
  categories : List CatRef
  tags : List String
  images : List ProductImage
  attributes : List ProductAttribute
  default_attributes : List ProductAttribute
  variations : List Nat
  grouped_products : List Nat
  menu_order : Nat
  meta_data : List String
  links : ProductLinks
  fallback : Bool
deriving DecidableEq

/-- String rendering of a possibly-NaN JS number, as in template literals. -/
def numStr : Option Int → String
  | some n => toString n
  | none => "NaN"

/-- Does the character list `s` start with the character list `t`? -/
def startsWithList : List Char → List Char → Bool
  | _, [] => true
  | [], _ :: _ => false
  | a :: s, b :: t => a = b && startsWithList s t

/-- Does the character list `s` contain `t` as a contiguous run?  Models
JS `String.prototype.includes`. -/
def containsList (t : List Char) : List Char → Bool
  | [] => startsWithList [] t
  | c :: rest => startsWithList (c :: rest) t || containsList t rest

/-- JS `s.includes(t)`. -/
def strContains (s t : String) : Bool :=
  containsList t.data s.data

/-- JS `s.toLowerCase()` (the names involved are ASCII). -/
def strToLower (s : String) : String :=
  String.mk (s.data.map Char.toLower)

/-- Longest leading run of decimal digits. -/
def takeDigits : List Char → List Char
  | [] => []
  | c :: rest => if c.isDigit then c :: takeDigits rest else []

/-- Numeric value of a digit list (most significant first). -/
def digitsToNat (l : List Char) : Nat :=
  l.foldl (fun acc c => acc * 10 + (c.toNat - 48)) 0

/-- Parse the leading digit run of a character list, `none` when there is
no digit. -/
def parseDigits : List Char → Option Int
  | l =>
    match takeDigits l with
    | [] => none
    | d :: ds => some ((digitsToNat (d :: ds) : Nat) : Int)

/-- JS `parseInt(s)` in base 10: skip leading spaces, optional sign, then
the longest digit run; `none` models `NaN`. -/
def parseIntOpt (s : String) : Option Int :=
  match s.data.dropWhile (fun c => c = ' ') with
  | '-' :: rest => (parseDigits rest).map (fun n => -n)
  | '+' :: rest => parseDigits rest
  | t => parseDigits t

/-- The fixed 16-entry category list returned by `generateMockCategories`. -/
def generateMockCategories : List Category :=
  [ ⟨53, "Vinyl Fence", "vinyl-fence", 15⟩,
    ⟨49, "Aluminum Fence", "aluminum-fence", 10⟩,
    ⟨439, "Wood Fence", "wood-fence", 12⟩,
    ⟨296, "Chain Link Fence", "chain-link-fence", 8⟩,
    ⟨289, "Vinyl Panels", "vinyl-panels", 6⟩,
    ⟨290, "Vinyl Gates", "vinyl-gates", 4⟩,
    ⟨291, "Vinyl Posts", "vinyl-posts", 3⟩,
    ⟨292, "Aluminum Panels", "aluminum-panels", 5⟩,
    ⟨293, "Aluminum Posts", "aluminum-posts", 3⟩,
    ⟨295, "Aluminum Gates", "aluminum-gates", 4⟩,
    ⟨297, "Chain Link Fabric", "chain-link-fabric", 4⟩,
    ⟨298, "Chain Link Gates", "chain-link-gates", 3⟩,
    ⟨299, "Chain Link Posts", "chain-link-posts", 3⟩,
    ⟨300, "Wood Posts", "wood-posts", 3⟩,
    ⟨301, "Wood Panels", "wood-panels", 5⟩,
    ⟨302, "Wood Gates", "wood-gates", 4⟩ ]

/-- The template product of `generateMockProduct` (lines 272-356).  `now`
models the `new Date().toISOString()` reads performed while building it. -/
def mockProductTemplate (now : String) (productId : Option Int) : Product :=
  { id := productId
    name := "Mock Product " ++ numStr productId
    slug := "mock-product-" ++ numStr productId
    permalink := "https://example.com/product/mock-product-" ++ numStr productId
    date_created := now
    date_modified := now
    type := "simple"
    status := "publish"
    featured := false
    catalog_visibility := "visible"
    description := "This is a mock product description."
    short_description := "Mock product short description."
    sku := "SKU-" ++ numStr productId
    price := "99.99"
    regular_price := "99.99"
    sale_price := ""
    on_sale := false
    purchasable := true
    total_sales := 0
    virtual := false
    downloadable := false
    downloads := []
    download_limit := -1
    download_expiry := -1
    external_url := ""
    button_text := ""
    tax_status := "taxable"
    tax_class := ""
    manage_stock := false
    stock_quantity := none
    stock_status := "instock"
    backorders := "no"
    backorders_allowed := false
    backordered := false
    sold_individually := false
    weight := ""
    dimensions := ⟨"", "", ""⟩
    shipping_required := true
    shipping_taxable := true
    shipping_class := ""
    shipping_class_id := 0
    reviews_allowed := true
    average_rating := "0.00"
    rating_count := 0
    related_ids := []
    upsell_ids := []
    cross_sell_ids := []
    parent_id := 0
    purchase_note := ""
    categories := []
    tags := []
    images :=
      [ { id := productId.map (fun n => 1000 + n)
          date_created := some now
          date_modified := some now
          src := "https://example.com/wp-content/uploads/mock-product-" ++ numStr productId ++ ".jpg"
          name := "Mock Product " ++ numStr productId
          alt := "Mock Product " ++ numStr productId } ]
    attributes := []
    default_attributes := []
    variations := []
    grouped_products := []
    menu_order := 0
    meta_data := []
    links :=
      { self := [⟨"https://example.com/wp-json/wc/v3/products/" ++ numStr productId⟩]
        collection := [⟨"https://example.com/wp-json/wc/v3/products"⟩] }
    fallback := false }

/-- `generateMockProduct` (lines 270-427): template plus hand-curated
overrides for ids 101 and 104; any other id yields the default mock product
flagged as fallback data. -/
def generateMockProduct (now : String) (productId : Option Int) : Product :=
  if productId = some 101 then
    { mockProductTemplate now productId with
      name := "Vinyl Privacy Panel"
      price := "89.99"
      regular_price := "89.99"
      categories :=
        [ ⟨53, "Vinyl Fence", "vinyl-fence"⟩,
          ⟨289, "Vinyl Panels", "vinyl-panels"⟩ ]
      attributes :=
        [ ⟨1, "Width", 0, true, false, ["6 ft", "8 ft"]⟩,
          ⟨2, "Height", 1, true, false, ["4 ft", "6 ft", "8 ft"]⟩,
          ⟨3, "Color", 2, true, false, ["White", "Almond"]⟩ ]
      images :=
        [ { id := some 101
            date_created := none
            date_modified := none
            src := "https://example.com/vinyl-privacy.jpg"
            name := "Vinyl Privacy Panel"
            alt := "Vinyl Privacy Panel" } ]
      description := "Our premium vinyl privacy panels are constructed with durable, low-maintenance materials that won\x27t fade, crack, or peel. These panels provide complete privacy while maintaining a clean, attractive appearance."
      short_description := "Durable, low-maintenance vinyl privacy fence panels." }
  else if productId = some 104 then
    { mockProductTemplate now productId with
      name := "Vinyl Gate"
      price := "219.99"
      regular_price := "219.99"
      categories :=
        [ ⟨53, "Vinyl Fence", "vinyl-fence"⟩,
          ⟨290, "Vinyl Gates", "vinyl-gates"⟩ ]
      attributes :=
        [ ⟨1, "Width", 0, true, true, ["3 ft", "4 ft", "5 ft", "6 ft"]⟩,
          ⟨2, "Height", 1, true, true, ["4 ft", "6 ft"]⟩,
          ⟨3, "Style", 2, true, true, ["Privacy", "Picket"]⟩ ]
      images :=
        [ { id := some 104
            date_created := none
            date_modified := none
            src := "https://example.com/vinyl-gate.jpg"
            name := "Vinyl Gate"
            alt := "Vinyl Gate" } ]
      description := "Our vinyl gates match perfectly with our vinyl fence panels for a consistent, elegant look. All hardware included for easy installation."
      short_description := "High-quality vinyl gate to match your vinyl fence." }
  else
    { mockProductTemplate now productId with
      name := "Mock Product " ++ numStr productId
      fallback := true
      description := "This is a fallback product because the requested product could not be found."
      attributes :=
        [ ⟨1, "Width", 0, true, false, ["6 ft", "8 ft"]⟩,
          ⟨2, "Height", 1, true, false, ["4 ft", "6 ft"]⟩ ] }

/-- A JS object used as a parameter map: ordered key/value list.  A value
`none` models `undefined` or `null` (the client treats them identically);
`some s` is a string value.  Object literals never carry duplicate keys;
duplicate keys in a raw list are resolved last-wins, as JS property update
semantics dictate. -/
def JsParams : Type := List (String × Option String)

/-- JS property read `obj[k]`: outer `none` = key absent (`undefined`),
`some none` = key bound to `null`/`undefined`, `some (some s)` = string
binding.  Last binding wins. -/
def getProp : List (String × Option String) → String → Option (Option String)
  | [], _ => none
  | (k0, v) :: rest, k =>
    match getProp rest k with
    | some r => some r
    | none => if k0 = k then some v else none

/-- JS property assignment `obj[k] = v`: replace the value of the first
occurrence of `k` in place, otherwise append the binding at the end —
exactly the object-spread update behaviour. -/
def setKey : List (String × Option String) → String → Option String → List (String × Option String)
  | [], k, v => [(k, v)]
  | (k0, v0) :: rest, k, v =>
    if k0 = k then (k, v) :: rest else (k0, v0) :: setKey rest k v

/-- JS object spread `{...base, ...params}` minus the fresh literal: fold
the bindings of `params` over `base` with property assignment. -/
def objExtend (base : List (String × Option String)) (params : List (String × Option String)) :
    List (String × Option String) :=
  params.foldl (fun acc kv => setKey acc kv.1 kv.2) base

/-- String truthiness of a property read: a JS string is truthy when the
key is present, non-null and the string is nonempty. -/
def jsStrTruthy : Option (Option String) → Option String
  | some (some s) => if s = "" then none else some s
  | _ => none

/-- One base entry of the in-memory catalog in `generateMockProducts`
(lines 440-496): only these five fields appear on the base objects. -/
structure BaseProduct where
  id : Nat
  name : String
  price : String
  categories : List CatRef
  attributes : List ProductAttribute
deriving DecidableEq

/-- The fixed base product set of `generateMockProducts`. -/
def baseProducts : List BaseProduct :=
  [ { id := 101
      name := "Vinyl Privacy Panel"
      price := "89.99"
      categories :=
        [ ⟨53, "Vinyl Fence", "vinyl-fence"⟩, ⟨289, "Vinyl Panels", "vinyl-panels"⟩ ]
      attributes :=
        [ ⟨1, "Width", 0, true, false, ["6 ft", "8 ft"]⟩,
          ⟨2, "Height", 1, true, false, ["4 ft", "6 ft", "8 ft"]⟩,
          ⟨3, "Color", 2, true, false, ["White", "Almond"]⟩ ] },
    { id := 102
      name := "Vinyl Picket Panel"
      price := "79.99"
      categories :=
        [ ⟨53, "Vinyl Fence", "vinyl-fence"⟩, ⟨289, "Vinyl Panels", "vinyl-panels"⟩ ]
      attributes :=
        [ ⟨1, "Width", 0, true, false, ["6 ft", "8 ft"]⟩,
          ⟨2, "Height", 1, true, false, ["3 ft", "4 ft"]⟩,
          ⟨3, "Color", 2, true, false, ["White", "Almond"]⟩ ] },
    { id := 103
      name := "Vinyl Post"
      price := "45.99"
      categories :=
        [ ⟨53, "Vinyl Fence", "vinyl-fence"⟩, ⟨291, "Vinyl Posts", "vinyl-posts"⟩ ]
      attributes :=
        [ ⟨2, "Height", 0, true, false, ["4 ft", "5 ft", "6 ft", "8 ft"]⟩,
          ⟨3, "Color", 1, true, false, ["White", "Almond"]⟩ ] },
    { id := 104
      name := "Vinyl Gate"
      price := "219.99"
      categories :=
        [ ⟨53, "Vinyl Fence", "vinyl-fence"⟩, ⟨290, "Vinyl Gates", "vinyl-gates"⟩ ]
      attributes :=
        [ ⟨1, "Width", 0, true, true, ["3 ft", "4 ft", "5 ft", "6 ft"]⟩,
          ⟨2, "Height", 1, true, true, ["4 ft", "6 ft"]⟩,
          ⟨3, "Style", 2, true, true, ["Privacy", "Picket"]⟩ ] } ]

/-- The category predicate of `generateMockProducts`:
`cat.id === parseInt(categoryFilter) || cat.slug === categoryFilter`
(`parseInt` of a non-numeric filter is `NaN`, which equals no id). -/
def matchesCategoryFilter (cf : String) (p : BaseProduct) : Bool :=
  p.categories.any (fun cat => parseIntOpt cf = some (cat.id : Int) || cat.slug = cf)

/-- `generateMockProducts` (lines 435-516): filter the base set by the
truthy `category` and `search` parameters, then expand each surviving base
entry into a full product via `generateMockProduct`. -/
def generateMockProducts (now : String) (endpoint : String) (params : JsParams) : List Product :=
  let categoryFilter := jsStrTruthy (getProp params "category")
  let searchFilter := jsStrTruthy (getProp params "search")
  let afterCategory : List BaseProduct :=
    match categoryFilter with
    | some cf => baseProducts.filter (matchesCategoryFilter cf)
    | none => baseProducts
  let afterSearch : List BaseProduct :=
    match searchFilter with
    | some sf => afterCategory.filter (fun p => strContains (strToLower p.name) (strToLower sf))
    | none => afterCategory
  afterSearch.map (fun p => generateMockProduct now (some (p.id : Int)))

/-- The heterogeneous return value of `generateMockData`: a category list,
a single product, a product list, or the default empty array. -/
inductive MockData where
  | categories (cats : List Category)
  | product (p : Product)
  | products (ps : List Product)
  | emptyArr
deriving DecidableEq

/-- Does `s` match the JS regular expression `/products\/\d+/`, i.e.
contain `products/` immediately followed by a digit? -/
def pidAt (s : List Char) : Bool :=
  startsWithList s ("products/".data) &&
    (match s.drop 9 with
     | d :: _ => d.isDigit
     | [] => false)

/-- Scan every suffix for the `products/<digit>` pattern. -/
def hasPid : List Char → Bool
  | [] => false
  | c :: rest => pidAt (c :: rest) || hasPid rest

/-- JS `/products\/\d+/.test(endpoint)`. -/
def regexProductsId (endpoint : String) : Bool :=
  hasPid endpoint.data

/-- JS `endpoint.split('/').pop()`: the last piece of the split is exactly
the suffix after the final `/` (split always yields at least one piece, so
`pop` never sees an empty array). -/
def lastSegment (endpoint : String) : String :=
  String.mk ((endpoint.data.reverse.takeWhile (fun c => c ≠ '/')).reverse)

/-- `generateMockData` (lines 218-237): dispatch on the endpoint shape;
endpoints not mentioning `products` fall through to the empty array. -/
def generateMockData (now : String) (endpoint : String) (params : JsParams) : MockData :=
  if strContains endpoint "products" then
    if strContains endpoint "categories" then
      .categories generateMockCategories
    else if regexProductsId endpoint then
      .product (generateMockProduct now (parseIntOpt (lastSegment endpoint)))
    else
      .products (generateMockProducts now endpoint params)
  else
    .emptyArr

/-- The relevant environment variables; `none` = variable unset. -/
structure Env where
  REACT_APP_WOOCOMMERCE_URL : Option String
  REACT_APP_WOOCOMMERCE_CONSUMER_KEY : Option String
  REACT_APP_WOOCOMMERCE_CONSUMER_SECRET : Option String
deriving DecidableEq

/-- JS `v || d` for a possibly-unset environment string: an unset or empty
value is falsy and yields the default. -/
def jsOrDefault (v : Option String) (d : String) : String :=
  match v with
  | some s => if s = "" then d else s
  | none => d

/-- `primaryDomain` (line 25). -/
def primaryDomain (env : Env) : String :=
  jsOrDefault env.REACT_APP_WOOCOMMERCE_URL "https://example.com"

/-- Split a character list around the first occurrence of the nonempty
pattern `pat`. -/
def splitFirst : List Char → List Char → Option (List Char × List Char)
  | [], _ => none
  | c :: rest, pat =>
    if startsWithList (c :: rest) pat then some ([], (c :: rest).drop pat.length)
    else
      match splitFirst rest pat with
      | some (pre, post) => some (c :: pre, post)
      | none => none

/-- JS `s.replace(pat, repl)` with a string pattern: replace the first
occurrence only, leave the string unchanged when the pattern is absent. -/
def replaceFirst (s pat repl : String) : String :=
  match splitFirst s.data pat.data with
  | some (pre, post) => String.mk (pre ++ repl.data ++ post)
  | none => s

/-- Hostname of a URL as `new URL(url).hostname` computes it, for the
`scheme://host[:port][/path]` shapes this client builds; `none` models the
URL constructor throwing.  (The full WHATWG parser handles more shapes;
only these reach `getAlternativeUrls`.) -/
def jsUrlHostname (url : String) : Option String :=
  match splitFirst url.data ("://".data) with
  | some (scheme, rest) =>
    if scheme = [] then none
    else
      let host := rest.takeWhile (fun c => c ≠ '/' && c ≠ ':' && c ≠ '?' && c ≠ '#')
      if host = [] then none else some (String.mk host)
  | none => none

/-- `getAlternativeUrls` (lines 28-42). -/
def getAlternativeUrls (url : String) : List String :=
  if url = "" then []
  else
    match jsUrlHostname url with
    | none => []
    | some host =>
      if startsWithList host.data ("www.".data) then [replaceFirst url "www." ""]
      else [replaceFirst url "://" "://www."]

/-- The shape of `API_CONFIG` (lines 45-57). -/
structure ApiConfig where
  endpointFormats : List String
  alternativeDomains : List String
  consumerKey : String
  consumerSecret : String
deriving DecidableEq

/-- `API_CONFIG` as built at module load from the environment. -/
def API_CONFIG (env : Env) : ApiConfig :=
  { endpointFormats :=
      [ primaryDomain env ++ "/wp-json/wc/v3",
        primaryDomain env ++ "/index.php/wp-json/wc/v3",
        primaryDomain env ++ "/wp-json/wc/v3" ]
    alternativeDomains := getAlternativeUrls (primaryDomain env)
    consumerKey := jsOrDefault env.REACT_APP_WOOCOMMERCE_CONSUMER_KEY ""
    consumerSecret := jsOrDefault env.REACT_APP_WOOCOMMERCE_CONSUMER_SECRET "" }

/-- The shape of `API_SETTINGS` (lines 7-22). -/
structure ApiSettings where
  USE_MOCK_DATA : Bool
  REQUEST_TIMEOUT : Nat
  MAX_RETRIES : Nat
  RETRY_DELAY : Nat
  DEBUG_MODE : Bool
  SHOW_FALLBACK_WARNINGS : Bool
  LOG_LEVEL : String
deriving DecidableEq

/-- The literal `API_SETTINGS` value. -/
def API_SETTINGS : ApiSettings :=
  { USE_MOCK_DATA := true
    REQUEST_TIMEOUT := 15000
    MAX_RETRIES := 3
    RETRY_DELAY := 1000
    DEBUG_MODE := true
    SHOW_FALLBACK_WARNINGS := true
    LOG_LEVEL := "debug" }

/-- A built request URL: the pre-query part `format + "/" + endpoint` and
the ordered query entries appended via `searchParams.append`.  Percent
encoding and WHATWG normalisation are not modelled; the claims concern
which entries are present. -/
structure BuiltUrl where
  base : String
  query : List (String × String)
deriving DecidableEq

/-- The merged `allParams` object `{consumer_key, consumer_secret, ...params}`
of `buildWooCommerceUrl` (lines 106-110). -/
def allParams (cfg : ApiConfig) (params : JsParams) : List (String × Option String) :=
  objExtend
    [("consumer_key", some cfg.consumerKey), ("consumer_secret", some cfg.consumerSecret)]
    params

/-- Drop entries whose value is `undefined`/`null`, keeping order — the
`forEach` append loop of lines 113-117. -/
def dropNulls (ps : List (String × Option String)) : List (String × String) :=
  ps.filterMap (fun kv =>
    match kv.2 with
    | some v => some (kv.1, v)
    | none => none)

/-- `buildWooCommerceUrl` (lines 98-120).
`endpointFormats[formatIndex] || endpointFormats[0]`: an out-of-range index
(or an empty-string template, which never occurs in `API_CONFIG`) falls back
to the first template.  The `headD ""` default is unreachable for the
three-template `API_CONFIG`: with no templates at all the JS URL constructor
would throw instead. -/
def buildWooCommerceUrl (cfg : ApiConfig) (endpoint : String) (params : JsParams)
    (formatIndex : Nat) : BuiltUrl :=
  let endpointFormat :=
    match cfg.endpointFormats.get? formatIndex with
    | some f => if f = "" then cfg.endpointFormats.headD "" else f
    | none => cfg.endpointFormats.headD ""
  { base := endpointFormat ++ "/" ++ endpoint
    query := dropNulls (allParams cfg params) }

/-- The failure taxonomy of one attempt. -/
inductive Failure where
  | httpError (status : Nat)
  | networkError
  | timeoutErr
  | decodeError
deriving DecidableEq

/-- The raw transport event of one attempt, before classification:
an HTTP reply with its status and the JSON-parse result of its body
(`none` = `response.json()` throws), a transport-level rejection, or the
abort timer firing. -/
inductive FetchEvent (β : Type) where
  | reply (status : Nat) (parsed : Option β)
  | netErr
  | timedOut
deriving DecidableEq

/-- Classified outcome of one attempt. -/
inductive Outcome (β : Type) where
  | ok (b : β)
  | fail (e : Failure)
deriving DecidableEq

/-- The classification performed by the try block of `woocommerceRequest`
(lines 164-172): `response.ok` (a 2xx status) with a parsing body yields
the parsed body; a 2xx body that fails to parse is a decode failure; a
non-2xx status throws carrying the status; a rejected fetch is a network
failure and a fired abort timer a timeout. -/
def classify {β : Type} : FetchEvent β → Outcome β
  | .reply status parsed =>
    if 200 ≤ status && status < 300 then
      match parsed with
      | some b => .ok b
      | none => .fail .decodeError
    else .fail (.httpError status)
  | .netErr => .fail .networkError
  | .timedOut => .fail .timeoutErr

/-- The body attached to the fetch options (lines 155-157): only POST and
PUT carry the serialized `data`, and only when `data` is not null. -/
def bodyOf (data : Option String) (method : String) : Option String :=
  match data with
  | some d => if method = "POST" || method = "PUT" then some d else none
  | none => none

/-- The network oracle: attempt number, built URL, method and optional body
determine the observed transport event.  Keying by attempt number as well
as URL lets two attempts against the same URL observe different events, as
a real network may. -/
def Net (β : Type) : Type :=
  Nat → BuiltUrl → String → Option String → FetchEvent β

/-- The classified outcome of cascade attempt `i`. -/
def attemptOutcome {β : Type} (cfg : ApiConfig) (net : Net β) (endpoint : String)
    (params : JsParams) (method : String) (data : Option String) (i : Nat) : Outcome β :=
  classify (net i (buildWooCommerceUrl cfg endpoint params i) method (bodyOf data method))

/-- Result of `woocommerceRequest`: a parsed live body, the synthesized
mock substitute, a rejection, or the undefined value the JS function would
return if the loop ran zero iterations (empty template list — unreachable
for `API_CONFIG`). -/
inductive ReqResult (β : Type) where
  | resolved (b : β)
  | mocked (m : MockData)
  | rejected (e : Failure)
  | undef
deriving DecidableEq

/-- The `for` loop of `woocommerceRequest` (lines 140-204).  `remaining`
is the number of template indices not yet tried (`length - i`), `i` the
current index.  Returns the result together with the list of template
indices actually attempted.  On a failure at index `i` the loop continues
exactly when `i < length - 1` (some template remains, `remaining ≥ 2`);
at the last index it substitutes mock data when enabled, otherwise
rethrows that last failure. -/
def requestAux {β : Type} (cfg : ApiConfig) (net : Net β) (useMockData : Bool)
    (now endpoint : String) (params : JsParams) (method : String) (data : Option String) :
    Nat → Nat → ReqResult β × List Nat
  | 0, _ => (.undef, [])
  | remaining + 1, i =>
    match attemptOutcome cfg net endpoint params method data i with
    | .ok b => (.resolved b, [i])
    | .fail e =>
      match remaining with
      | r + 1 =>
        let next := requestAux cfg net useMockData now endpoint params method data (r + 1) (i + 1)
        (next.1, i :: next.2)
      | 0 =>
        if useMockData then (.mocked (generateMockData now endpoint params), [i])
        else (.rejected e, [i])

/-- `woocommerceRequest` (lines 131-205), with the `options` argument
already resolved to the effective `useMockData` flag. -/
def woocommerceRequest {β : Type} (cfg : ApiConfig) (net : Net β) (useMockData : Bool)
    (now endpoint : String) (params : JsParams) (method : String) (data : Option String) :
    ReqResult β × List Nat :=
  requestAux cfg net useMockData now endpoint params method data cfg.endpointFormats.length 0

/-- The facade `api.get` (line 65-67): a `read` call — GET, no body, and
the default `useMockData = API_SETTINGS.USE_MOCK_DATA`. -/
def apiGet {β : Type} (env : Env) (net : Net β) (now endpoint : String) (params : JsParams) :
    ReqResult β × List Nat :=
  woocommerceRequest (API_CONFIG env) net API_SETTINGS.USE_MOCK_DATA now endpoint params "GET" none

/-- Unfolding lemma: a successful attempt at index `i` short-circuits —
the loop returns the parsed body having attempted only index `i`. -/
theorem requestAux_ok {β : Type} (cfg : ApiConfig) (net : Net β) (useMock : Bool)
    (now endpoint : String) (params : JsParams) (method : String) (data : Option String)
    (r i : Nat) (b : β)
    (h : attemptOutcome cfg net endpoint params method data i = .ok b) :
    requestAux cfg net useMock now endpoint params method data (r + 1) i = (.resolved b, [i]) := by
  rw [requestAux.eq_2, h]

/-- Unfolding lemma: a failed attempt at a non-final index records the
index and continues with the next template. -/
theorem requestAux_fail_cont {β : Type} (cfg : ApiConfig) (net : Net β) (useMock : Bool)
    (now endpoint : String) (params : JsParams) (method : String) (data : Option String)
    (r i : Nat) (e0 : Failure)
    (h : attemptOutcome cfg net endpoint params method data i = .fail e0) :
    requestAux cfg net useMock now endpoint params method data ((r + 1) + 1) i
      = ((requestAux cfg net useMock now endpoint params method data (r + 1) (i + 1)).1,
          i :: (requestAux cfg net useMock now endpoint params method data (r + 1) (i + 1)).2) := by
  rw [requestAux.eq_2, h]

/-- Unfolding lemma: a failed attempt at the final index substitutes mock
data when enabled, otherwise rethrows that failure. -/
theorem requestAux_fail_last {β : Type} (cfg : ApiConfig) (net : Net β) (useMock : Bool)
    (now endpoint : String) (params : JsParams) (method : String) (data : Option String)
    (i : Nat) (e0 : Failure)
    (h : attemptOutcome cfg net endpoint params method data i = .fail e0) :
    requestAux cfg net useMock now endpoint params method data (0 + 1) i
      = if useMock then (.mocked (generateMockData now endpoint params), [i])
        else (.rejected e0, [i]) := by
  rw [requestAux.eq_2, h]

/-- Fuel-3 instance of `requestAux_fail_cont`. -/
theorem requestAux3_fail {β : Type} (cfg : ApiConfig) (net : Net β) (useMock : Bool)
    (now endpoint : String) (params : JsParams) (method : String) (data : Option String)
    (i : Nat) (e0 : Failure)
    (h : attemptOutcome cfg net endpoint params method data i = .fail e0) :
    requestAux cfg net useMock now endpoint params method data 3 i
      = ((requestAux cfg net useMock now endpoint params method data 2 (i + 1)).1,
          i :: (requestAux cfg net useMock now endpoint params method data 2 (i + 1)).2) :=
  requestAux_fail_cont cfg net useMock now endpoint params method data 1 i e0 h

/-- Fuel-2 instance of `requestAux_fail_cont`. -/
theorem requestAux2_fail {β : Type} (cfg : ApiConfig) (net : Net β) (useMock : Bool)
    (now endpoint : String) (params : JsParams) (method : String) (data : Option String)
    (i : Nat) (e0 : Failure)
    (h : attemptOutcome cfg net endpoint params method data i = .fail e0) :
    requestAux cfg net useMock now endpoint params method data 2 i
      = ((requestAux cfg net useMock now endpoint params method data 1 (i + 1)).1,
          i :: (requestAux cfg net useMock now endpoint params method data 1 (i + 1)).2) :=
  requestAux_fail_cont cfg net useMock now endpoint params method data 0 i e0 h

/-- Fuel-1 instance of `requestAux_fail_last`. -/
theorem requestAux1_fail {β : Type} (cfg : ApiConfig) (net : Net β) (useMock : Bool)
    (now endpoint : String) (params : JsParams) (method : String) (data : Option String)
    (i : Nat) (e0 : Failure)
    (h : attemptOutcome cfg net endpoint params method data i = .fail e0) :
    requestAux cfg net useMock now endpoint params method data 1 i
      = if useMock then (.mocked (generateMockData now endpoint params), [i])
        else (.rejected e0, [i]) :=
  requestAux_fail_last cfg net useMock now endpoint params method data i e0 h

/-- For the three-template `API_CONFIG`, a request is the loop started with
fuel 3 at index 0. -/
theorem wooRequest_as_aux3 {β : Type} (env : Env) (net : Net β) (useMock : Bool)
    (now endpoint : String) (params : JsParams) (method : String) (data : Option String) :
    woocommerceRequest (API_CONFIG env) net useMock now endpoint params method data
      = requestAux (API_CONFIG env) net useMock now endpoint params method data 3 0 := rfl

/-- An attempt that is not a success carries some failure. -/
theorem not_ok_exists_fail {β : Type} (o : Outcome β) (h : ∀ b, o ≠ .ok b) :
    ∃ e, o = .fail e := by
  cases o with
  | ok b => exact absurd rfl (h b)
  | fail e => exact ⟨e, rfl⟩

/-- Fuel-3 instance of `requestAux_ok`. -/
theorem requestAux3_ok {β : Type} (cfg : ApiConfig) (net : Net β) (useMock : Bool)
    (now endpoint : String) (params : JsParams) (method : String) (data : Option String)
    (i : Nat) (b : β)
    (h : attemptOutcome cfg net endpoint params method data i = .ok b) :
    requestAux cfg net useMock now endpoint params method data 3 i = (.resolved b, [i]) :=
  requestAux_ok cfg net useMock now endpoint params method data 2 i b h

/-- Fuel-2 instance of `requestAux_ok`. -/
theorem requestAux2_ok {β : Type} (cfg : ApiConfig) (net : Net β) (useMock : Bool)
    (now endpoint : String) (params : JsParams) (method : String) (data : Option String)
    (i : Nat) (b : β)
    (h : attemptOutcome cfg net endpoint params method data i = .ok b) :
    requestAux cfg net useMock now endpoint params method data 2 i = (.resolved b, [i]) :=
  requestAux_ok cfg net useMock now endpoint params method data 1 i b h

/-- Fuel-1 instance of `requestAux_ok`. -/
theorem requestAux1_ok {β : Type} (cfg : ApiConfig) (net : Net β) (useMock : Bool)
    (now endpoint : String) (params : JsParams) (method : String) (data : Option String)
    (i : Nat) (b : β)
    (h : attemptOutcome cfg net endpoint params method data i = .ok b) :
    requestAux cfg net useMock now endpoint params method data 1 i = (.resolved b, [i]) :=
  requestAux_ok cfg net useMock now endpoint params method data 0 i b h

/-- Whenever the loop runs at all, the index it starts from heads the list
of attempted indices. -/
theorem requestAux_trace_head {β : Type} (cfg : ApiConfig) (net : Net β) (useMock : Bool)
    (now endpoint : String) (params : JsParams) (method : String) (data : Option String)
    (r i : Nat) :
    ∃ t, (requestAux cfg net useMock now endpoint params method data (r + 1) i).2 = i :: t := by
  cases h : attemptOutcome cfg net endpoint params method data i with
  | ok b =>
    exact ⟨[], by rw [requestAux_ok cfg net useMock now endpoint params method data r i b h]⟩
  | fail e =>
    cases r with
    | zero =>
      refine ⟨[], ?_⟩
      rw [requestAux_fail_last cfg net useMock now endpoint params method data i e h]
      cases useMock <;> rfl
    | succ r =>
      exact ⟨_, by rw [requestAux_fail_cont cfg net useMock now endpoint params method data r i e h]⟩

/-- C1: if all three endpoint-format attempts of a request fail, then with
synthetic fallback enabled the call resolves to the mock data synthesized
from the original endpoint and query parameters, and with fallback disabled
it rejects with the failure recorded at the last template; in particular a
`read("products/categories", {})` call (GET, no body, default fallback
setting) whose attempts all fail resolves to the fixed category list, which
has 16 entries. -/
theorem cascade_exhaustion_fallback_policy (env : Env) {β : Type} (net : Net β)
    (now endpoint : String) (params : JsParams) (method : String) (data : Option String)
    (e0 e1 e2 : Failure)
    (h0 : attemptOutcome (API_CONFIG env) net endpoint params method data 0 = .fail e0)
    (h1 : attemptOutcome (API_CONFIG env) net endpoint params method data 1 = .fail e1)
    (h2 : attemptOutcome (API_CONFIG env) net endpoint params method data 2 = .fail e2) :
    woocommerceRequest (API_CONFIG env) net true now endpoint params method data
      = (.mocked (generateMockData now endpoint params), [0, 1, 2])
    ∧ woocommerceRequest (API_CONFIG env) net false now endpoint params method data
      = (.rejected e2, [0, 1, 2])
    ∧ ((∀ j, j < 3 → ∀ b : β,
          attemptOutcome (API_CONFIG env) net "products/categories" [] "GET" none j ≠ .ok b) →
        apiGet env net now "products/categories" []
          = ((.mocked (.categories generateMockCategories) : ReqResult β), [0, 1, 2]))
    ∧ generateMockCategories.length = 16 := by
  refine ⟨?_, ?_, ?_, rfl⟩
  · rw [wooRequest_as_aux3, requestAux3_fail _ _ _ _ _ _ _ _ _ e0 h0,
      requestAux2_fail _ _ _ _ _ _ _ _ _ e1 h1, requestAux1_fail _ _ _ _ _ _ _ _ _ e2 h2]
    simp
  · rw [wooRequest_as_aux3, requestAux3_fail _ _ _ _ _ _ _ _ _ e0 h0,
      requestAux2_fail _ _ _ _ _ _ _ _ _ e1 h1, requestAux1_fail _ _ _ _ _ _ _ _ _ e2 h2]
    simp
  · intro hall
    obtain ⟨f0, hf0⟩ := not_ok_exists_fail _ (hall 0 (by omega))
    obtain ⟨f1, hf1⟩ := not_ok_exists_fail _ (hall 1 (by omega))
    obtain ⟨f2, hf2⟩ := not_ok_exists_fail _ (hall 2 (by omega))
    show requestAux (API_CONFIG env) net true now "products/categories" [] "GET" none 3 0 = _
    rw [requestAux3_fail _ _ _ _ _ _ _ _ _ f0 hf0, requestAux2_fail _ _ _ _ _ _ _ _ _ f1 hf1,
      requestAux1_fail _ _ _ _ _ _ _ _ _ f2 hf2]
    simp
    rfl

/-- A fixed environment with no variables set: primary domain, key and
secret all take their defaults. -/
def env0 : Env := ⟨none, none, none⟩

/-- A network on which every attempt observes a transport-level rejection. -/
def allNetErr : Net Nat := fun _ _ _ _ => .netErr

/-- Witness for `cascade_exhaustion_fallback_policy` at a concrete
environment and network. -/
theorem cascade_exhaustion_fallback_policy_witness :
    attemptOutcome (API_CONFIG env0) allNetErr "products/categories" [] "GET" none 0
        = .fail .networkError
    ∧ woocommerceRequest (API_CONFIG env0) allNetErr false "T" "products/categories" [] "GET" none
        = (.rejected .networkError, [0, 1, 2]) :=
  ⟨rfl,
    (cascade_exhaustion_fallback_policy env0 allNetErr "T" "products/categories" [] "GET" none
      .networkError .networkError .networkError rfl rfl rfl).2.1⟩

/-- C2: if templates before index `i` all fail and the attempt against
template `i` succeeds (a 2xx response whose body parses), the request
returns that parsed body having attempted exactly templates `0..i`; no
template index beyond `i` is ever attempted. -/
theorem cascade_short_circuit (env : Env) {β : Type} (net : Net β) (useMock : Bool)
    (now endpoint : String) (params : JsParams) (method : String) (data : Option String)
    (i : Nat) (b : β) (hi : i < 3)
    (hprev : ∀ j, j < i → ∀ b' : β,
      attemptOutcome (API_CONFIG env) net endpoint params method data j ≠ .ok b')
    (hsucc : attemptOutcome (API_CONFIG env) net endpoint params method data i = .ok b) :
    woocommerceRequest (API_CONFIG env) net useMock now endpoint params method data
      = (.resolved b, List.range (i + 1))
    ∧ ∀ j, i < j →
        j ∉ (woocommerceRequest (API_CONFIG env) net useMock now endpoint params method data).2 := by
  have hmain : woocommerceRequest (API_CONFIG env) net useMock now endpoint params method data
      = (.resolved b, List.range (i + 1)) := by
    interval_cases i
    · rw [wooRequest_as_aux3, requestAux3_ok _ _ _ _ _ _ _ _ _ b hsucc]
      rfl
    · obtain ⟨f0, hf0⟩ := not_ok_exists_fail _ (hprev 0 (by omega))
      rw [wooRequest_as_aux3, requestAux3_fail _ _ _ _ _ _ _ _ _ f0 hf0,
        requestAux2_ok _ _ _ _ _ _ _ _ _ b hsucc]
      rfl
    · obtain ⟨f0, hf0⟩ := not_ok_exists_fail _ (hprev 0 (by omega))
      obtain ⟨f1, hf1⟩ := not_ok_exists_fail _ (hprev 1 (by omega))
      rw [wooRequest_as_aux3, requestAux3_fail _ _ _ _ _ _ _ _ _ f0 hf0,
        requestAux2_fail _ _ _ _ _ _ _ _ _ f1 hf1, requestAux1_ok _ _ _ _ _ _ _ _ _ b hsucc]
      rfl
  refine ⟨hmain, ?_⟩
  intro j hj
  rw [hmain]
  simp [List.mem_range]
  omega

/-- A network failing on the first attempt and succeeding from the second
attempt on. -/
def secondTryNet : Net Nat := fun i _ _ _ => if i = 0 then .netErr else .reply 200 (some 42)

/-- Witness for `cascade_short_circuit`: template 1 succeeds after a
network failure at template 0, so the trace stops at index 1. -/
theorem cascade_short_circuit_witness :
    attemptOutcome (API_CONFIG env0) secondTryNet "products" [] "GET" none 1 = .ok 42
    ∧ woocommerceRequest (API_CONFIG env0) secondTryNet true "T" "products" [] "GET" none
        = (.resolved 42, [0, 1]) := by
  refine ⟨rfl, ?_⟩
  have h := cascade_short_circuit env0 secondTryNet true "T" "products" [] "GET" none 1 42
    (by omega) ?_ rfl
  · exact h.1
  · intro j hj b' hok
    interval_cases j
    have h0 : attemptOutcome (API_CONFIG env0) secondTryNet "products" [] "GET" none 0
        = .fail .networkError := rfl
    rw [h0] at hok
    simp at hok

/-- A network whose first attempt yields a 2xx response with an unparsable
body and whose later attempts yield parsing 2xx responses. -/
def badJsonFirstNet : Net Nat := fun i _ _ _ => if i = 0 then .reply 200 none else .reply 200 (some 7)

/-- C4 counterexample: a JSON-parse fault on a 2xx response at template 0
is classified as a decode failure, yet the cascade goes on to attempt
template 1 (which here succeeds): the attempted-index trace is `[0, 1]`,
refuting the claim that decode failures stop the cascade. -/
theorem decode_failure_not_terminal_cex :
    attemptOutcome (API_CONFIG env0) badJsonFirstNet "products" [] "GET" none 0
        = .fail .decodeError
    ∧ woocommerceRequest (API_CONFIG env0) badJsonFirstNet true "T" "products" [] "GET" none
        = (.resolved 7, [0, 1]) := ⟨rfl, rfl⟩

/-- C4 amended: a JSON-parse fault on a 2xx response is classified as a
decode failure, but the catch block treats it like every other failure —
whenever it occurs at a non-final template index that the cascade reaches,
the next template index is attempted as well. -/
theorem decode_failure_retried_across_templates (env : Env) {β : Type} (net : Net β)
    (useMock : Bool) (now endpoint : String) (params : JsParams) (method : String)
    (data : Option String) (i : Nat) (hi : i < 2)
    (hprev : ∀ j, j < i → ∀ b : β,
      attemptOutcome (API_CONFIG env) net endpoint params method data j ≠ .ok b)
    (hdec : attemptOutcome (API_CONFIG env) net endpoint params method data i
      = .fail .decodeError) :
    (i + 1) ∈ (woocommerceRequest (API_CONFIG env) net useMock now endpoint params method data).2 := by
  interval_cases i
  · rw [wooRequest_as_aux3, requestAux3_fail _ _ _ _ _ _ _ _ _ _ hdec]
    obtain ⟨t, ht⟩ := requestAux_trace_head (API_CONFIG env) net useMock now endpoint params
      method data 1 1
    rw [show (2 : Nat) = 1 + 1 from rfl, ht]
    simp
  · obtain ⟨f0, hf0⟩ := not_ok_exists_fail _ (hprev 0 (by omega))
    rw [wooRequest_as_aux3, requestAux3_fail _ _ _ _ _ _ _ _ _ f0 hf0,
      requestAux2_fail _ _ _ _ _ _ _ _ _ _ hdec]
    obtain ⟨t, ht⟩ := requestAux_trace_head (API_CONFIG env) net useMock now endpoint params
      method data 0 2
    rw [show (1 : Nat) = 0 + 1 from rfl, ht]
    simp

/-- Witness for `decode_failure_retried_across_templates` at the concrete
decode-failing network. -/
theorem decode_failure_retried_across_templates_witness :
    (0 : Nat) < 2
    ∧ 1 ∈ (woocommerceRequest (API_CONFIG env0) badJsonFirstNet true "T" "products" [] "GET" none).2 :=
  ⟨by omega,
    decode_failure_retried_across_templates env0 badJsonFirstNet true "T" "products" [] "GET" none 0
      (by omega) (fun j hj => absurd hj (by omega)) rfl⟩

/-- C9: for every endpoint not containing the substring `products`, the
synthetic data generator returns the empty array, whatever the query
parameters. -/
theorem mock_data_non_products_empty (now endpoint : String) (params : JsParams)
    (h : strContains endpoint "products" = false) :
    generateMockData now endpoint params = .emptyArr := by
  simp [generateMockData, h]

/-- Witness for `mock_data_non_products_empty` at the endpoint `orders`. -/
theorem mock_data_non_products_empty_witness :
    strContains "orders" "products" = false
    ∧ generateMockData "T" "orders" [] = .emptyArr :=
  ⟨by decide, mock_data_non_products_empty "T" "orders" [] (by decide)⟩

/-- C5 counterexample: single-product synthesis embeds the clock reading
(`new Date().toISOString()`) in the `date_created`/`date_modified` fields,
so two calls with identical resource path and query parameters made at
different instants return structurally different objects. -/
theorem synthesis_clock_dependence_cex :
    generateMockData "2024-01-01T00:00:00.000Z" "products/101" []
      ≠ generateMockData "2024-01-02T00:00:00.000Z" "products/101" [] := by
  intro h
  have hd : ("2024-01-01T00:00:00.000Z" : String) = "2024-01-02T00:00:00.000Z" :=
    congrArg
      (fun m => match m with
        | MockData.product p => p.date_created
        | _ => "") h
  exact absurd hd (by decide)

/-- C5 amended: synthetic generation is a pure function of resource path,
query parameters and the clock reading at call time; on category paths (and
on non-product paths, which yield the empty array) the output is moreover
independent of the clock, so only product synthesis varies between calls. -/
theorem synthesis_deterministic_given_clock (t1 t2 endpoint : String) (params : JsParams)
    (h : strContains endpoint "products" = false ∨ strContains endpoint "categories" = true) :
    generateMockData t1 endpoint params = generateMockData t2 endpoint params := by
  rcases h with h | h
  · simp [generateMockData, h]
  · by_cases hp : strContains endpoint "products" = true
    · simp [generateMockData, hp, h]
    · simp at hp
      simp [generateMockData, hp]

/-- Witness for `synthesis_deterministic_given_clock` on the category
path. -/
theorem synthesis_deterministic_given_clock_witness :
    (strContains "products/categories" "products" = false
      ∨ strContains "products/categories" "categories" = true)
    ∧ generateMockData "A" "products/categories" []
        = generateMockData "B" "products/categories" [] :=
  ⟨Or.inr (by decide),
    synthesis_deterministic_given_clock "A" "B" "products/categories" [] (Or.inr (by decide))⟩

/-- C6: synthesizing product id 101 yields the product named
"Vinyl Privacy Panel" carrying a `Width` attribute with options
`["6 ft", "8 ft"]`; synthesizing any id with no hand-curated override
(every id other than 101 and 104, e.g. 999 — including the `NaN` id) yields
a product with the fallback flag set and a non-empty default attribute
list. -/
theorem single_product_synthesis_101_999 (now : String) (pid : Option Int)
    (h101 : pid ≠ some 101) (h104 : pid ≠ some 104) :
    (generateMockProduct now (some 101)).name = "Vinyl Privacy Panel"
    ∧ (∃ a ∈ (generateMockProduct now (some 101)).attributes,
        a.name = "Width" ∧ a.options = ["6 ft", "8 ft"])
    ∧ (generateMockProduct now pid).fallback = true
    ∧ (generateMockProduct now pid).attributes ≠ [] := by
  have hfb : (generateMockProduct now pid).fallback = true := by
    simp only [generateMockProduct, if_neg h101, if_neg h104]
  have hattr : (generateMockProduct now pid).attributes
      = [ ⟨1, "Width", 0, true, false, ["6 ft", "8 ft"]⟩,
          ⟨2, "Height", 1, true, false, ["4 ft", "6 ft"]⟩ ] := by
    simp only [generateMockProduct, if_neg h101, if_neg h104]
  refine ⟨rfl, ?_, hfb, ?_⟩
  · have ha : (generateMockProduct now (some 101)).attributes
        = [ ⟨1, "Width", 0, true, false, ["6 ft", "8 ft"]⟩,
            ⟨2, "Height", 1, true, false, ["4 ft", "6 ft", "8 ft"]⟩,
            ⟨3, "Color", 2, true, false, ["White", "Almond"]⟩ ] := rfl
    rw [ha]
    simp
  · rw [hattr]
    simp

/-- Witness for `single_product_synthesis_101_999` at the unmapped id
999. -/
theorem single_product_synthesis_101_999_witness :
    (some 999 : Option Int) ≠ some 101
    ∧ (generateMockProduct "T" (some 999)).fallback = true
    ∧ (generateMockProduct "T" (some 999)).attributes ≠ [] :=
  ⟨by decide,
    (single_product_synthesis_101_999 "T" (some 999) (by decide) (by decide)).2.2.1,
    (single_product_synthesis_101_999 "T" (some 999) (by decide) (by decide)).2.2.2⟩

/-- C3 counterexample: with `category = "53"` every base entry passes the
filter, but the expansion step replaces the unmapped ids 102 and 103 by
default fallback products whose category list is empty — so the returned
collection contains entries whose category id/slug does not match
53/vinyl-fence (the second returned entry has id 102 and no categories at
all). -/
theorem collection_category_filter_cex :
    ((generateMockProducts "T" "products" [("category", some "53")]).map (fun p => p.id)
        = [some 101, some 102, some 103, some 104])
    ∧ ((generateMockProducts "T" "products" [("category", some "53")]).get? 1).map
        (fun p => p.categories) = some [] := ⟨rfl, rfl⟩

/-- C3 amended: collection synthesis applies the `category` filter to the
base catalog entries before expansion — with `category = "53"` it returns
the expansions of exactly the matching base entries (here all four, ids
101-104), and expanded entries without curated overrides carry empty
category lists; the `search = "gate"` half of the claim holds as stated:
every returned entry's name contains "gate" case-insensitively. -/
theorem collection_filters_on_base_entries (now : String) :
    (generateMockProducts now "products" [("category", some "53")]
        = (baseProducts.filter (matchesCategoryFilter "53")).map
            (fun p => generateMockProduct now (some (p.id : Int))))
    ∧ ((generateMockProducts now "products" [("category", some "53")]).map (fun p => p.id)
        = [some 101, some 102, some 103, some 104])
    ∧ (∀ p ∈ generateMockProducts now "products" [("search", some "gate")],
        strContains (strToLower p.name) (strToLower "gate") = true) := by
  refine ⟨rfl, rfl, ?_⟩
  intro p hp
  have h : generateMockProducts now "products" [("search", some "gate")]
      = [generateMockProduct now (some 104)] := rfl
  rw [h] at hp
  rcases List.mem_singleton.mp hp with rfl
  show strContains (strToLower "Vinyl Gate") (strToLower "gate") = true
  decide

/-- Witness for `collection_filters_on_base_entries` on the search
filter. -/
theorem collection_filters_on_base_entries_witness :
    generateMockProduct "T" (some 104)
      ∈ generateMockProducts "T" "products" [("search", some "gate")]
    ∧ strContains (strToLower (generateMockProduct "T" (some 104)).name) (strToLower "gate")
      = true := by
  have hmem : generateMockProduct "T" (some 104)
      ∈ generateMockProducts "T" "products" [("search", some "gate")] := by
    rw [show generateMockProducts "T" "products" [("search", some "gate")]
        = [generateMockProduct "T" (some 104)] from rfl]
    simp
  exact ⟨hmem, (collection_filters_on_base_entries "T").2.2 _ hmem⟩

/-- No key occurs twice: each head key is unbound in the tail.  JS objects
always satisfy this; `objExtend` preserves it. -/
def KeysNodup : List (String × Option String) → Prop
  | [] => True
  | (k, _) :: rest => getProp rest k = none ∧ KeysNodup rest

/-- Assigning one key leaves reads of any other key unchanged. -/
theorem getProp_setKey_ne (ps : List (String × Option String)) (k : String) (v : Option String)
    (q : String) (h : q ≠ k) : getProp (setKey ps k v) q = getProp ps q := by
  induction ps with
  | nil =>
    have hne : ¬(k = q) := fun he => h he.symm
    simp [setKey, getProp, hne]
  | cons kv rest ih =>
    obtain ⟨k0, v0⟩ := kv
    by_cases hk : k0 = k
    · subst hk
      have hne : ¬(k0 = q) := fun he => h he.symm
      simp [setKey, getProp, hne]
    · simp [setKey, hk, getProp, ih]

/-- On a duplicate-free object, assignment is read back. -/
theorem getProp_setKey_self (ps : List (String × Option String)) (k : String) (v : Option String)
    (hnd : KeysNodup ps) : getProp (setKey ps k v) k = some v := by
  induction ps with
  | nil => simp [setKey, getProp]
  | cons kv rest ih =>
    obtain ⟨k0, v0⟩ := kv
    obtain ⟨h0, hrest⟩ := hnd
    by_cases hk : k0 = k
    · subst hk
      simp [setKey, getProp, h0]
    · simp [setKey, hk, getProp, ih hrest]

/-- Assignment preserves duplicate-freeness. -/
theorem keysNodup_setKey (ps : List (String × Option String)) (k : String) (v : Option String)
    (hnd : KeysNodup ps) : KeysNodup (setKey ps k v) := by
  induction ps with
  | nil => exact ⟨rfl, trivial⟩
  | cons kv rest ih =>
    obtain ⟨k0, v0⟩ := kv
    obtain ⟨h0, hrest⟩ := hnd
    by_cases hk : k0 = k
    · subst hk
      simp [setKey]
      exact ⟨h0, hrest⟩
    · simp [setKey, hk]
      refine ⟨?_, ih hrest⟩
      rw [getProp_setKey_ne rest k v k0 hk]
      exact h0

/-- Reading a spread `{...base, ...params}`: a key bound in `params` wins,
otherwise the base binding shows through. -/
theorem getProp_objExtend (base params : List (String × Option String)) (k : String)
    (hnd : KeysNodup base) :
    getProp (objExtend base params) k
      = match getProp params k with
        | some r => some r
        | none => getProp base k := by
  induction params generalizing base with
  | nil => rfl
  | cons kv rest ih =>
    obtain ⟨k0, v0⟩ := kv
    have hstep : objExtend base ((k0, v0) :: rest) = objExtend (setKey base k0 v0) rest := rfl
    rw [hstep, ih (setKey base k0 v0) (keysNodup_setKey base k0 v0 hnd)]
    cases hr : getProp rest k with
    | some r => simp [getProp, hr]
    | none =>
      by_cases hk : k0 = k
      · subst hk
        simp [getProp, hr, getProp_setKey_self base k0 v0 hnd]
      · simp [getProp, hr, hk, getProp_setKey_ne base k0 v0 k (Ne.symm hk)]

/-- Spreading onto a duplicate-free base stays duplicate-free. -/
theorem keysNodup_objExtend (base params : List (String × Option String))
    (hnd : KeysNodup base) : KeysNodup (objExtend base params) := by
  induction params generalizing base with
  | nil => exact hnd
  | cons kv rest ih => exact ih (setKey base kv.1 kv.2) (keysNodup_setKey base kv.1 kv.2 hnd)

/-- A successful read exhibits a binding of the object. -/
theorem getProp_some_mem (ps : List (String × Option String)) (k : String) (x : Option String)
    (h : getProp ps k = some x) : (k, x) ∈ ps := by
  induction ps with
  | nil => exact absurd h (by simp [getProp])
  | cons kv rest ih =>
    obtain ⟨k0, v0⟩ := kv
    simp only [getProp] at h
    cases hr : getProp rest k with
    | some r =>
      rw [hr] at h
      exact List.mem_cons_of_mem _ (ih (hr.trans h))
    | none =>
      rw [hr] at h
      by_cases hk : k0 = k
      · subst hk
        simp at h
        subst h
        exact List.mem_cons_self _ _
      · simp [hk] at h
  
/-- On a duplicate-free object, any binding is what a read returns. -/
theorem mem_getProp (ps : List (String × Option String)) (k : String) (x : Option String)
    (hnd : KeysNodup ps) (h : (k, x) ∈ ps) : getProp ps k = some x := by
  induction ps with
  | nil => simp at h
  | cons kv rest ih =>
    obtain ⟨k0, v0⟩ := kv
    obtain ⟨h0, hrest⟩ := hnd
    rcases List.mem_cons.mp h with he | hm
    · have hk : k = k0 := congrArg Prod.fst he
      have hv : x = v0 := congrArg Prod.snd he
      subst hk
      subst hv
      simp [getProp, h0]
    · simp [getProp, ih hrest hm]

/-- The merged credential/parameter object is duplicate-free. -/
theorem keysNodup_allParams (cfg : ApiConfig) (params : JsParams) :
    KeysNodup (allParams cfg params) :=
  keysNodup_objExtend _ params ⟨rfl, rfl, trivial⟩

/-- A non-null binding survives the null-skipping append loop. -/
theorem mem_dropNulls_of_getProp (ps : List (String × Option String)) (k v : String)
    (h : getProp ps k = some (some v)) : (k, v) ∈ dropNulls ps := by
  refine List.mem_filterMap.mpr ⟨(k, some v), getProp_some_mem ps k (some v) h, rfl⟩

/-- Every appended query entry comes from a non-null binding. -/
theorem getProp_of_mem_dropNulls (ps : List (String × Option String)) (k v : String)
    (hnd : KeysNodup ps) (h : (k, v) ∈ dropNulls ps) : getProp ps k = some (some v) := by
  obtain ⟨a, ha, hfa⟩ := List.mem_filterMap.mp h
  obtain ⟨k0, v0⟩ := a
  cases v0 with
  | none => simp at hfa
  | some w =>
    simp at hfa
    obtain ⟨hk, hw⟩ := hfa
    subst hk
    subst hw
    exact mem_getProp ps _ _ hnd ha


/-- Reads of the merged `allParams` object: caller parameters override the
credential entries. -/
theorem getProp_allParams (cfg : ApiConfig) (params : JsParams) (k : String) :
    getProp (allParams cfg params) k
      = match getProp params k with
        | some r => some r
        | none => getProp
            [("consumer_key", some cfg.consumerKey), ("consumer_secret", some cfg.consumerSecret)]
            k :=
  getProp_objExtend _ params k ⟨rfl, rfl, trivial⟩

/-- C7 amended: provided the caller query parameters do not bind
`consumer_key` or `consumer_secret` to `undefined`/`null` (a caller binding
overrides the credential entry, and a null binding removes the key), every
built URL carries both credential query parameters, whatever the resource
path, the remaining parameters and the template index; when a credential is
unconfigured (empty) and the caller does not bind it, it appears with the
empty-string value rather than being omitted. -/
theorem url_carries_credentials (env : Env) (endpoint : String) (params : JsParams) (i : Nat)
    (hck : getProp params "consumer_key" ≠ some none)
    (hcs : getProp params "consumer_secret" ≠ some none) :
    (∃ v, ("consumer_key", v) ∈ (buildWooCommerceUrl (API_CONFIG env) endpoint params i).query)
    ∧ (∃ v, ("consumer_secret", v) ∈ (buildWooCommerceUrl (API_CONFIG env) endpoint params i).query)
    ∧ (getProp params "consumer_key" = none → (API_CONFIG env).consumerKey = "" →
        ("consumer_key", "") ∈ (buildWooCommerceUrl (API_CONFIG env) endpoint params i).query)
    ∧ (getProp params "consumer_secret" = none → (API_CONFIG env).consumerSecret = "" →
        ("consumer_secret", "") ∈ (buildWooCommerceUrl (API_CONFIG env) endpoint params i).query) := by
  have hq : ∀ k v, getProp (allParams (API_CONFIG env) params) k = some (some v) →
      (k, v) ∈ (buildWooCommerceUrl (API_CONFIG env) endpoint params i).query :=
    fun k v h => mem_dropNulls_of_getProp _ k v h
  refine ⟨?_, ?_, ?_, ?_⟩
  · cases hg : getProp params "consumer_key" with
    | none =>
      exact ⟨(API_CONFIG env).consumerKey, hq _ _ (by rw [getProp_allParams, hg]; try rfl)⟩
    | some w =>
      cases w with
      | none => exact absurd hg hck
      | some s => exact ⟨s, hq _ _ (by rw [getProp_allParams, hg]; try rfl)⟩
  · cases hg : getProp params "consumer_secret" with
    | none =>
      exact ⟨(API_CONFIG env).consumerSecret, hq _ _ (by rw [getProp_allParams, hg]; try rfl)⟩
    | some w =>
      cases w with
      | none => exact absurd hg hcs
      | some s => exact ⟨s, hq _ _ (by rw [getProp_allParams, hg]; try rfl)⟩
  · intro hg hkey
    refine hq _ _ ?_
    rw [getProp_allParams, hg]
    show some (some (API_CONFIG env).consumerKey) = some (some "")
    rw [hkey]
  · intro hg hkey
    refine hq _ _ ?_
    rw [getProp_allParams, hg]
    show some (some (API_CONFIG env).consumerSecret) = some (some "")
    rw [hkey]

/-- A string with a nonempty suffix appended is nonempty. -/
theorem string_append_ne_empty (a b : String) (hb : b.data ≠ []) : a ++ b ≠ "" := by
  intro hE
  have h2 : (a ++ b).data = ("" : String).data := congrArg String.data hE
  have h3 : a.data ++ b.data = [] := h2
  exact hb (List.append_eq_nil.mp h3).2


/-- Two built URLs agreeing on both fields are equal. -/
theorem builtUrl_ext (u v : BuiltUrl) (hb : u.base = v.base) (hq : u.query = v.query) : u = v := by
  cases u
  cases v
  simp at hb hq
  rw [hb, hq]

/-- C8 amended: URL resolution combines the template at the given index
with the resource path, clamping an out-of-range index to the first
template, and appends the merged credential/parameter map as query-string
entries, skipping every parameter whose value is undefined or null; a
caller parameter sharing a credential key overrides the credential entry
(rather than both being appended), and every non-credential parameter is
carried over unchanged. -/
theorem url_resolution_characterization (env : Env) (endpoint : String) (params : JsParams) (i : Nat) :
    (3 ≤ i → buildWooCommerceUrl (API_CONFIG env) endpoint params i
        = buildWooCommerceUrl (API_CONFIG env) endpoint params 0)
    ∧ (buildWooCommerceUrl (API_CONFIG env) endpoint params 0).base
        = primaryDomain env ++ "/wp-json/wc/v3" ++ "/" ++ endpoint
    ∧ (buildWooCommerceUrl (API_CONFIG env) endpoint params 1).base
        = primaryDomain env ++ "/index.php/wp-json/wc/v3" ++ "/" ++ endpoint
    ∧ (buildWooCommerceUrl (API_CONFIG env) endpoint params 2).base
        = primaryDomain env ++ "/wp-json/wc/v3" ++ "/" ++ endpoint
    ∧ (∀ k v, (k, v) ∈ (buildWooCommerceUrl (API_CONFIG env) endpoint params i).query
        ↔ getProp (allParams (API_CONFIG env) params) k = some (some v))
    ∧ (∀ k, k ≠ "consumer_key" → k ≠ "consumer_secret" →
        getProp (allParams (API_CONFIG env) params) k = getProp params k) := by
  have hne0 : ¬(primaryDomain env ++ "/wp-json/wc/v3" = "") :=
    string_append_ne_empty _ _ (by decide)
  have hne1 : ¬(primaryDomain env ++ "/index.php/wp-json/wc/v3" = "") :=
    string_append_ne_empty _ _ (by decide)
  have hbase0 : (buildWooCommerceUrl (API_CONFIG env) endpoint params 0).base
      = primaryDomain env ++ "/wp-json/wc/v3" ++ "/" ++ endpoint := by
    show (if primaryDomain env ++ "/wp-json/wc/v3" = ""
        then (API_CONFIG env).endpointFormats.headD ""
        else primaryDomain env ++ "/wp-json/wc/v3") ++ "/" ++ endpoint = _
    rw [if_neg hne0]
  refine ⟨?_, hbase0, ?_, ?_, ?_, ?_⟩
  · intro h3
    have hg : (API_CONFIG env).endpointFormats.get? i = none :=
      List.get?_eq_none.mpr h3
    refine builtUrl_ext _ _ ?_ rfl
    rw [hbase0]
    show (match (API_CONFIG env).endpointFormats.get? i with
        | some f => if f = "" then (API_CONFIG env).endpointFormats.headD "" else f
        | none => (API_CONFIG env).endpointFormats.headD "") ++ "/" ++ endpoint = _
    rw [hg]
    rfl
  · show (if primaryDomain env ++ "/index.php/wp-json/wc/v3" = ""
        then (API_CONFIG env).endpointFormats.headD ""
        else primaryDomain env ++ "/index.php/wp-json/wc/v3") ++ "/" ++ endpoint = _
    rw [if_neg hne1]
  · show (if primaryDomain env ++ "/wp-json/wc/v3" = ""
        then (API_CONFIG env).endpointFormats.headD ""
        else primaryDomain env ++ "/wp-json/wc/v3") ++ "/" ++ endpoint = _
    rw [if_neg hne0]
  · intro k v
    exact ⟨fun h => getProp_of_mem_dropNulls _ k v (keysNodup_allParams _ _) h,
      fun h => mem_dropNulls_of_getProp _ k v h⟩
  · intro k h1 h2
    rw [getProp_allParams]
    cases hg : getProp params k with
    | some r => simp
    | none => simp [getProp, Ne.symm h1, Ne.symm h2]

/-- C7 counterexample: with configured credentials but a caller parameter
binding `consumer_key` to null, the built URL carries no `consumer_key`
entry at all — the spread override replaces the credential value with null
and the append loop then skips the key. -/
theorem credential_param_null_removal_cex :
    ((buildWooCommerceUrl (API_CONFIG ⟨none, some "envkey", some "envsecret"⟩) "products"
        [("consumer_key", none)] 0).query.map Prod.fst) = ["consumer_secret"] := by decide

/-- Witness for `url_carries_credentials`: unconfigured credentials appear
as empty strings in a concrete URL. -/
theorem url_carries_credentials_witness :
    ("consumer_key", "")
      ∈ (buildWooCommerceUrl (API_CONFIG env0) "products" [("per_page", some "20")] 0).query :=
  (url_carries_credentials env0 "products" [("per_page", some "20")] 0
    (by decide) (by decide)).2.2.1 (by decide) rfl

/-- C8 counterexample: a caller parameter named `consumer_key` overrides
the configured credential — the query carries the caller value once and the
credential entry `consumer_key=envkey` is absent, so credentials and
parameters are not both appended. -/
theorem credential_override_cex :
    (buildWooCommerceUrl (API_CONFIG ⟨none, some "envkey", none⟩) "products"
        [("consumer_key", some "OVERRIDE")] 0).query
      = [("consumer_key", "OVERRIDE"), ("consumer_secret", "")]
    ∧ (API_CONFIG ⟨none, some "envkey", none⟩).consumerKey = "envkey"
    ∧ ("consumer_key", "envkey")
        ∉ (buildWooCommerceUrl (API_CONFIG ⟨none, some "envkey", none⟩) "products"
            [("consumer_key", some "OVERRIDE")] 0).query := by
  exact ⟨rfl, rfl, by decide⟩

/-- Witness for `url_resolution_characterization`: the out-of-range index 5
resolves like index 0, and a concrete parameter entry round-trips. -/
theorem url_resolution_characterization_witness :
    (3 : Nat) ≤ 5
    ∧ buildWooCommerceUrl (API_CONFIG env0) "products" [("category", some "53")] 5
        = buildWooCommerceUrl (API_CONFIG env0) "products" [("category", some "53")] 0 :=
  ⟨by omega,
    (url_resolution_characterization env0 "products" [("category", some "53")] 5).1 (by omega)⟩

/-- The cascade loop never reads the `alternativeDomains` field: two
configurations agreeing on templates and credentials run identically. -/
theorem requestAux_alt_irrelevant {β : Type} (f a1 a2 : List String) (ck cs : String)
    (net : Net β) (useMock : Bool) (now endpoint : String) (params : JsParams)
    (method : String) (data : Option String) :
    ∀ r i, requestAux ⟨f, a1, ck, cs⟩ net useMock now endpoint params method data r i
      = requestAux ⟨f, a2, ck, cs⟩ net useMock now endpoint params method data r i := by
  intro r
  induction r with
  | zero => intro i; rfl
  | succ n ih =>
    intro i
    rw [requestAux.eq_2, requestAux.eq_2]
    have hatt : attemptOutcome (⟨f, a1, ck, cs⟩ : ApiConfig) net endpoint params method data i
        = attemptOutcome (⟨f, a2, ck, cs⟩ : ApiConfig) net endpoint params method data i := rfl
    rw [hatt]
    cases attemptOutcome (⟨f, a2, ck, cs⟩ : ApiConfig) net endpoint params method data i with
    | ok b => rfl
    | fail e =>
      cases n with
      | zero => rfl
      | succ m => simp only [ih]

/-- C10: the startup-computed `alternativeDomains` are never consulted when
issuing requests — every candidate URL and every cascade outcome depends
only on the endpoint-format list and the credentials, so two configurations
differing only in `alternativeDomains` build identical URLs and produce
identical request behaviour on every input and every network. -/
theorem alternative_domains_unconsulted (c1 c2 : ApiConfig)
    (hf : c1.endpointFormats = c2.endpointFormats)
    (hk : c1.consumerKey = c2.consumerKey)
    (hs : c1.consumerSecret = c2.consumerSecret) :
    (∀ endpoint params i, buildWooCommerceUrl c1 endpoint params i
        = buildWooCommerceUrl c2 endpoint params i)
    ∧ ∀ (β : Type) (net : Net β) (useMock : Bool) (now endpoint : String) (params : JsParams)
        (method : String) (data : Option String),
        woocommerceRequest c1 net useMock now endpoint params method data
          = woocommerceRequest c2 net useMock now endpoint params method data := by
  obtain ⟨f1, a1, k1, s1⟩ := c1
  obtain ⟨f2, a2, k2, s2⟩ := c2
  simp only at hf hk hs
  subst hf
  subst hk
  subst hs
  refine ⟨fun endpoint params i => rfl, ?_⟩
  intro β net useMock now endpoint params method data
  exact requestAux_alt_irrelevant f1 a1 a2 k1 s1 net useMock now endpoint params method data _ 0

/-- A configuration carrying one alternative domain. -/
def cfgAltA : ApiConfig :=
  ⟨["https://example.com/wp-json/wc/v3"], ["https://www.example.com"], "k", "s"⟩

/-- The same configuration with the alternative domains dropped. -/
def cfgAltB : ApiConfig :=
  ⟨["https://example.com/wp-json/wc/v3"], [], "k", "s"⟩

/-- Witness for `alternative_domains_unconsulted`: the two concrete
configurations differ in `alternativeDomains` yet issue the same request. -/
theorem alternative_domains_unconsulted_witness :
    cfgAltA.alternativeDomains ≠ cfgAltB.alternativeDomains
    ∧ woocommerceRequest cfgAltA allNetErr true "T" "products" [] "GET" none
        = woocommerceRequest cfgAltB allNetErr true "T" "products" [] "GET" none :=
  ⟨by decide,
    (alternative_domains_unconsulted cfgAltA cfgAltB rfl rfl rfl).2 Nat allNetErr true "T"
      "products" [] "GET" none⟩
